import Mathlib

/-!
Shallow embedding of the Moon-orbit web application (webapp.py).

The numeric state of the application lives in Python floats and ints; we
embed the arithmetic exactly over the rationals (for the phase-index, clock
and button-transition logic) and over the reals (for the trigonometric
position and illumination functions).

Python-specific primitives are modelled explicitly:
* pyMod a b is the Python % operator on numbers: a - b * floor (a / b),
  whose result has the sign of the divisor b;
* pyInt x is the Python int(...) conversion: truncation toward zero;
* pyListGet l i is Python list indexing, where a negative index counts
  from the back and an out-of-range index raises (modelled as none).
-/

/-- Python % operator on exact numbers: the result has the sign of the
divisor. This is the exact-arithmetic idealization: binary64 evaluation of
the same operator additionally rounds fmod(a, b) + b to the nearest double,
which for a tiny negative a and positive b returns b itself rather than a
value strictly below b. -/
def pyMod {α : Type} [LinearOrderedField α] [FloorRing α] (a b : α) : α :=
  a - b * ⌊a / b⌋

/-- Python int(...) conversion on a number: truncation toward zero. -/
def pyInt {α : Type} [LinearOrderedField α] [FloorRing α] (x : α) : ℤ :=
  if 0 ≤ x then ⌊x⌋ else ⌈x⌉

/-- Python list indexing: a nonnegative index counts from the front, a
negative index counts from the back, anything out of range is none. -/
def pyListGet {α : Type} (l : List α) (i : ℤ) : Option α :=
  if 0 ≤ i then l.get? i.toNat
  else if 0 ≤ i + l.length then l.get? (i + l.length).toNat
  else none

/-! ## Constants (webapp.py lines 11-28) -/

/-- MOON_ORBIT_RADIUS = 384400 (km). -/
def MOON_ORBIT_RADIUS : ℚ := 384400

/-- MOON_ORBIT_PERIOD = 27.32 (days). -/
def MOON_ORBIT_PERIOD : ℚ := 27.32

/-- EARTH_ROTATION_PERIOD = 24 (hours). -/
def EARTH_ROTATION_PERIOD : ℚ := 24

/-- The ordered 8-phase label list MOON_PHASES. -/
def MOON_PHASES : List String := [
  "🌑 New Moon", "🌒 Waxing Crescent", "🌓 First Quarter", "🌔 Waxing Gibbous",
  "🌕 Full Moon", "🌖 Waning Gibbous", "🌗 Last Quarter", "🌘 Waning Crescent"
]

/-- The TIME_ZONES mapping (name, UTC offset in hours). -/
def TIME_ZONES : List (String × ℤ) :=
  [("GMT", 0), ("New York (EST)", -5), ("London (GMT)", 0),
   ("Beijing (CST)", 8), ("Sydney (AEDT)", 11)]

/-- The list of selectable offsets, i.e. the values of TIME_ZONES. -/
def TZ_OFFSETS : List ℤ := TIME_ZONES.map Prod.snd

/-! ## determine_moon_phase (webapp.py lines 46-48) -/

/-- The index computed inside determine_moon_phase:
int((day / MOON_ORBIT_PERIOD * 8) % 8). -/
def phase_index (day : ℚ) : ℤ :=
  pyInt (pyMod (day / MOON_ORBIT_PERIOD * 8) 8)

/-- determine_moon_phase(day) returns MOON_PHASES[phase_index]; the list
access is fallible (Python raises IndexError when out of range). -/
def determine_moon_phase (day : ℚ) : Option String :=
  pyListGet MOON_PHASES (phase_index day)

/-! ## calculate_time_of_day (webapp.py lines 51-55) -/

/-- The local variable hour of calculate_time_of_day:
((person_position % 360) / 360 * 24 + time_zone_offset) % 24. -/
def hour_of (person_position : ℚ) (time_zone_offset : ℤ) : ℚ :=
  pyMod (pyMod person_position 360 / 360 * 24 + (time_zone_offset : ℚ)) 24

/-- Zero-padded two-digit rendering of an integer, as the Python format
f-string with 02d produces for arguments between 0 and 99. -/
def pad2 (n : ℤ) : String :=
  if 0 ≤ n ∧ n < 10 then "0" ++ toString n else toString n

/-- calculate_time_of_day: format hour as HH:MM, truncating the hour and
the minutes (int(hour) and int((hour % 1) * 60)). -/
def calculate_time_of_day (person_position : ℚ) (time_zone_offset : ℤ) : String :=
  pad2 (pyInt (hour_of person_position time_zone_offset)) ++ ":" ++
    pad2 (pyInt (pyMod (hour_of person_position time_zone_offset) 1 * 60))

/-! ## Session state and the sidebar buttons (webapp.py lines 30-36, 147-169) -/

/-- The Streamlit session state: current_day (float), person_position
(int, degrees), time_zone_offset (int, hours). -/
structure SimState where
  current_day : ℚ
  person_position : ℤ
  time_zone_offset : ℤ

/-- The initial session state: day 0.0, angle 0, GMT offset 0. -/
def initState : SimState :=
  { current_day := 0, person_position := 0, time_zone_offset := 0 }

/-- The Add Day button: increment current_day by 1, and reset it to 0.0
when it exceeds MOON_ORBIT_PERIOD. -/
def addDay (s : SimState) : SimState :=
  if s.current_day + 1 > MOON_ORBIT_PERIOD then { s with current_day := 0 }
  else { s with current_day := s.current_day + 1 }

/-- The Spin the Earth button: rotate by 30 degrees, wrapping to 0 when
the angle reaches 360. -/
def spinEarth (s : SimState) : SimState :=
  if s.person_position + 30 ≥ 360 then { s with person_position := 0 }
  else { s with person_position := s.person_position + 30 }

/-- The time-zone selectbox: store the chosen offset. -/
def setTimeZone (z : ℤ) (s : SimState) : SimState :=
  { s with time_zone_offset := z }

/-- The Reset button: set current_day to 0.0 and person_position to 0. -/
def resetSim (s : SimState) : SimState :=
  { s with current_day := 0, person_position := 0 }

/-- States reachable from the initial session state by the discrete user
actions of the sidebar. -/
inductive Reachable : SimState → Prop
  | init : Reachable initState
  | addDayStep {s : SimState} : Reachable s → Reachable (addDay s)
  | spinStep {s : SimState} : Reachable s → Reachable (spinEarth s)
  | tzStep {s : SimState} {z : ℤ} : Reachable s → z ∈ TZ_OFFSETS →
      Reachable (setTimeZone z s)
  | resetStep {s : SimState} : Reachable s → Reachable (resetSim s)

/-! ## Trigonometric part: calculate_moon_position (lines 39-43) and
create_moon_image (lines 58-70), over the reals. -/

noncomputable section

/-- The orbital angle of calculate_moon_position:
2 * pi * (day / MOON_ORBIT_PERIOD). -/
def moon_angle (day : ℝ) : ℝ :=
  2 * Real.pi * (day / (MOON_ORBIT_PERIOD : ℝ))

/-- calculate_moon_position(day) returns (x, y, angle) with
x = MOON_ORBIT_RADIUS * cos(angle) and y = MOON_ORBIT_RADIUS * sin(angle). -/
def calculate_moon_position (day : ℝ) : ℝ × ℝ × ℝ :=
  ((MOON_ORBIT_RADIUS : ℝ) * Real.cos (moon_angle day),
   (MOON_ORBIT_RADIUS : ℝ) * Real.sin (moon_angle day),
   moon_angle day)

/-- The illuminated fraction computed in create_moon_image:
0.5 * (1 + cos(moon_angle)). -/
def lit_ratio (angle : ℝ) : ℝ := 0.5 * (1 + Real.cos angle)

/-- lit_width = int(lit_ratio * width). -/
def lit_width (angle : ℝ) (width : ℤ) : ℤ :=
  pyInt (lit_ratio angle * (width : ℝ))

/-- A pixel of the composed Moon sprite: either painted black by the
shading rectangle, or the untouched texture pixel at (x, y). -/
inductive MoonPixel
  | black
  | texture (x y : ℤ)

/-- create_moon_image: copy the Moon texture and paint the rectangle
[lit_width, 0, width, height] black (PIL rectangles include both corner
coordinates). The result maps each pixel coordinate to what is shown. -/
def create_moon_image (angle : ℝ) (width height : ℤ) (x y : ℤ) : MoonPixel :=
  if lit_width angle width ≤ x ∧ x ≤ width ∧ 0 ≤ y ∧ y ≤ height then MoonPixel.black
  else MoonPixel.texture x y

/-- The lit fraction as a function of the day, through the angle returned
by calculate_moon_position, as plot_moon_orbit composes them. -/
def lit_fraction (day : ℝ) : ℝ := lit_ratio (moon_angle day)

end

/-! ## Helper lemmas about the Python primitives -/

theorem pyMod_eq {α : Type} [LinearOrderedField α] [FloorRing α]
    (a b r : α) (k : ℤ) (hb : 0 < b) (h : a = b * k + r)
    (h0 : 0 ≤ r) (hr : r < b) : pyMod a b = r := by
  have hfloor : ⌊a / b⌋ = k := by
    rw [Int.floor_eq_iff]
    constructor
    · rw [h, le_div_iff₀ hb]
      nlinarith
    · rw [h, div_lt_iff₀ hb]
      nlinarith
  rw [pyMod, hfloor]
  linear_combination h

theorem pyMod_eq_fract {α : Type} [LinearOrderedField α] [FloorRing α]
    (a b : α) (hb : b ≠ 0) : pyMod a b = b * Int.fract (a / b) := by
  rw [pyMod, Int.fract]
  field_simp

theorem pyMod_nonneg {α : Type} [LinearOrderedField α] [FloorRing α]
    (a b : α) (hb : 0 < b) : 0 ≤ pyMod a b := by
  rw [pyMod_eq_fract a b hb.ne.symm]
  exact mul_nonneg hb.le (Int.fract_nonneg _)

theorem pyMod_lt {α : Type} [LinearOrderedField α] [FloorRing α]
    (a b : α) (hb : 0 < b) : pyMod a b < b := by
  rw [pyMod_eq_fract a b hb.ne.symm]
  calc b * Int.fract (a / b) < b * 1 := (mul_lt_mul_left hb).mpr (Int.fract_lt_one _)
    _ = b := mul_one b

theorem pyMod_add_mul {α : Type} [LinearOrderedField α] [FloorRing α]
    (t b : α) (k : ℤ) (hb : b ≠ 0) : pyMod (t + b * k) b = pyMod t b := by
  rw [pyMod, pyMod]
  have h : (t + b * k) / b = t / b + k := by
    field_simp
    ring
  rw [h, Int.floor_add_int]
  push_cast
  ring

theorem pyInt_eq {α : Type} [LinearOrderedField α] [FloorRing α]
    (x : α) (k : ℤ) (hk : 0 ≤ k) (h1 : (k : α) ≤ x) (h2 : x < k + 1) :
    pyInt x = k := by
  have hx : 0 ≤ x := le_trans (by exact_mod_cast hk) h1
  rw [pyInt, if_pos hx, Int.floor_eq_iff]
  exact ⟨h1, h2⟩

theorem pyInt_of_nonneg {α : Type} [LinearOrderedField α] [FloorRing α]
    (x : α) (h : 0 ≤ x) : pyInt x = ⌊x⌋ := by
  rw [pyInt, if_pos h]

/-! ## Helper lemmas about the phase computation -/

theorem phase_index_bounds (day : ℚ) : 0 ≤ phase_index day ∧ phase_index day ≤ 7 := by
  have h8 : (0 : ℚ) < 8 := by norm_num
  have hm0 := pyMod_nonneg (day / MOON_ORBIT_PERIOD * 8) 8 h8
  have hm8 := pyMod_lt (day / MOON_ORBIT_PERIOD * 8) 8 h8
  rw [phase_index, pyInt_of_nonneg _ hm0]
  refine ⟨Int.le_floor.mpr (by exact_mod_cast hm0), ?_⟩
  have hlt : ⌊pyMod (day / MOON_ORBIT_PERIOD * 8) 8⌋ < 8 :=
    Int.floor_lt.mpr (by exact_mod_cast hm8)
  omega

theorem determine_moon_phase_eq (day : ℚ) :
    determine_moon_phase day = MOON_PHASES.get? (phase_index day).toNat := by
  rw [determine_moon_phase, pyListGet, if_pos (phase_index_bounds day).1]

theorem phase_index_eval {day : ℚ} {k : ℤ} (hk : 0 ≤ k) (h8 : k < 8)
    (h1 : (k : ℚ) ≤ day / MOON_ORBIT_PERIOD * 8)
    (h2 : day / MOON_ORBIT_PERIOD * 8 < k + 1) :
    phase_index day = k := by
  have h0 : (0 : ℚ) ≤ day / MOON_ORBIT_PERIOD * 8 := le_trans (by exact_mod_cast hk) h1
  have hk7 : (k : ℚ) + 1 ≤ 8 := by exact_mod_cast h8
  have hlt : day / MOON_ORBIT_PERIOD * 8 < 8 := by linarith
  have hm : pyMod (day / MOON_ORBIT_PERIOD * 8) 8 = day / MOON_ORBIT_PERIOD * 8 :=
    pyMod_eq _ _ _ 0 (by norm_num) (by push_cast; ring) h0 hlt
  rw [phase_index, hm]
  exact pyInt_eq _ k hk h1 h2

theorem phase_index_zero : phase_index 0 = 0 :=
  phase_index_eval (by norm_num) (by norm_num) (by norm_num [MOON_ORBIT_PERIOD])
    (by norm_num [MOON_ORBIT_PERIOD])

theorem phase_index_quarter : phase_index (MOON_ORBIT_PERIOD / 4) = 2 :=
  phase_index_eval (by norm_num) (by norm_num) (by norm_num [MOON_ORBIT_PERIOD])
    (by norm_num [MOON_ORBIT_PERIOD])

theorem phase_index_three_quarters : phase_index (MOON_ORBIT_PERIOD * 0.75) = 6 :=
  phase_index_eval (by norm_num) (by norm_num) (by norm_num [MOON_ORBIT_PERIOD])
    (by norm_num [MOON_ORBIT_PERIOD])

theorem determine_moon_phase_zero : determine_moon_phase 0 = some "🌑 New Moon" := by
  rw [determine_moon_phase, phase_index_zero]
  decide

theorem determine_moon_phase_quarter :
    determine_moon_phase (MOON_ORBIT_PERIOD / 4) = some "🌓 First Quarter" := by
  rw [determine_moon_phase, phase_index_quarter]
  decide

theorem determine_moon_phase_three_quarters :
    determine_moon_phase (MOON_ORBIT_PERIOD * 0.75) = some "🌗 Last Quarter" := by
  rw [determine_moon_phase, phase_index_three_quarters]
  decide

/-! ## Helper lemmas about the clock computation -/

theorem hour_of_eval (pos : ℚ) (tz : ℤ) (r1 : ℚ) (k1 : ℤ)
    (h1 : pos = 360 * k1 + r1) (hr1a : 0 ≤ r1) (hr1b : r1 < 360)
    (r2 : ℚ) (k2 : ℤ)
    (h2 : r1 / 360 * 24 + (tz : ℚ) = 24 * k2 + r2) (hr2a : 0 ≤ r2) (hr2b : r2 < 24) :
    hour_of pos tz = r2 := by
  rw [hour_of, pyMod_eq pos 360 r1 k1 (by norm_num) h1 hr1a hr1b]
  exact pyMod_eq _ 24 r2 k2 (by norm_num) h2 hr2a hr2b

theorem hour_of_zero : hour_of 0 0 = 0 :=
  hour_of_eval 0 0 0 0 (by norm_num) (by norm_num) (by norm_num)
    0 0 (by norm_num) (by norm_num) (by norm_num)

theorem hour_of_noon : hour_of 180 0 = 12 :=
  hour_of_eval 180 0 180 0 (by norm_num) (by norm_num) (by norm_num)
    12 0 (by norm_num) (by norm_num) (by norm_num)

theorem hour_of_minus_five : hour_of 0 (-5) = 19 :=
  hour_of_eval 0 (-5) 0 0 (by norm_num) (by norm_num) (by norm_num)
    19 (-1) (by norm_num) (by norm_num) (by norm_num)

theorem calculate_time_of_day_int (pos : ℚ) (tz : ℤ) (n : ℤ) (hn : 0 ≤ n)
    (h : hour_of pos tz = (n : ℚ)) :
    calculate_time_of_day pos tz = pad2 n ++ ":" ++ pad2 0 := by
  rw [calculate_time_of_day, h]
  have hInt : pyInt ((n : ℚ)) = n := by
    rw [pyInt_of_nonneg _ (by exact_mod_cast hn)]
    exact Int.floor_intCast n
  have hMod : pyMod ((n : ℚ)) 1 = 0 :=
    pyMod_eq _ 1 0 n (by norm_num) (by ring) (by norm_num) (by norm_num)
  rw [hInt, hMod]
  have hz : (0 : ℚ) * 60 = 0 := by norm_num
  rw [hz]
  have h0 : pyInt (0 : ℚ) = 0 := by
    rw [pyInt_of_nonneg _ le_rfl]
    exact Int.floor_zero
  rw [h0]

theorem calculate_time_of_day_zero : calculate_time_of_day 0 0 = "00:00" := by
  rw [calculate_time_of_day_int 0 0 0 (by norm_num) (by rw [hour_of_zero]; norm_num)]
  decide

theorem calculate_time_of_day_noon : calculate_time_of_day 180 0 = "12:00" := by
  rw [calculate_time_of_day_int 180 0 12 (by norm_num) (by rw [hour_of_noon]; norm_num)]
  decide

theorem calculate_time_of_day_minus_five : calculate_time_of_day 0 (-5) = "19:00" := by
  rw [calculate_time_of_day_int 0 (-5) 19 (by norm_num) (by rw [hour_of_minus_five]; norm_num)]
  decide

/-! ## Helper lemma about the session-state transitions -/

theorem reachable_strong (s : SimState) (h : Reachable s) :
    (∃ n : ℕ, s.current_day = (n : ℚ) ∧ n ≤ 27) ∧
      0 ≤ s.person_position ∧ s.person_position < 360 := by
  induction h with
  | init =>
    exact ⟨⟨0, by norm_num [initState], by norm_num⟩, by norm_num [initState],
      by norm_num [initState]⟩
  | @addDayStep s hs ih =>
    obtain ⟨⟨n, hd, hn⟩, hp⟩ := ih
    by_cases hc : s.current_day + 1 > MOON_ORBIT_PERIOD
    · rw [addDay, if_pos hc]
      exact ⟨⟨0, by norm_num, by norm_num⟩, hp⟩
    · rw [addDay, if_neg hc]
      rw [not_lt] at hc
      rw [hd] at hc
      have hq : (n : ℚ) + 1 ≤ 683 / 25 := by
        calc (n : ℚ) + 1 ≤ MOON_ORBIT_PERIOD := hc
          _ = 683 / 25 := by norm_num [MOON_ORBIT_PERIOD]
      have hlt : (n : ℚ) < 27 := by linarith
      have hn27 : n < 27 := by exact_mod_cast hlt
      refine ⟨⟨n + 1, ?_, by omega⟩, hp⟩
      show _ + 1 = ((n + 1 : ℕ) : ℚ)
      rw [hd]
      push_cast
      ring
  | @spinStep s hs ih =>
    obtain ⟨hday, hp0, hp360⟩ := ih
    by_cases hc : s.person_position + 30 ≥ 360
    · rw [spinEarth, if_pos hc]
      exact ⟨hday, by norm_num, by norm_num⟩
    · rw [spinEarth, if_neg hc]
      rw [not_le] at hc
      refine ⟨hday, ?_, ?_⟩
      · show 0 ≤ s.person_position + 30
        omega
      · show s.person_position + 30 < 360
        omega
  | tzStep hs hz ih =>
    exact ih
  | resetStep hs ih =>
    obtain ⟨_, _, _⟩ := ih
    exact ⟨⟨0, by norm_num [resetSim], by norm_num⟩, by norm_num [resetSim],
      by norm_num [resetSim]⟩

/-! ## Claim theorems -/

/-- C1: for every day greater than or equal to 0, the phase computation
returns the index floor((day / P * 8) mod 8), an integer in the range 0..7,
which selects the corresponding label of the fixed ordered 8-phase list; in
particular day 0 yields the New Moon label (index 0), day P/4 yields the
First Quarter label (index 2) and day 0.75 * P yields the Last Quarter
label (index 6). -/
theorem moon_c1 :
    (∀ day : ℚ, 0 ≤ day →
      phase_index day = ⌊pyMod (day / MOON_ORBIT_PERIOD * 8) 8⌋ ∧
      0 ≤ phase_index day ∧ phase_index day ≤ 7 ∧
      determine_moon_phase day = MOON_PHASES.get? (phase_index day).toNat) ∧
    determine_moon_phase 0 = some "🌑 New Moon" ∧
    determine_moon_phase (MOON_ORBIT_PERIOD / 4) = some "🌓 First Quarter" ∧
    determine_moon_phase (MOON_ORBIT_PERIOD * 0.75) = some "🌗 Last Quarter" := by
  refine ⟨fun day hday => ⟨?_, (phase_index_bounds day).1, (phase_index_bounds day).2,
      determine_moon_phase_eq day⟩,
    determine_moon_phase_zero, determine_moon_phase_quarter,
    determine_moon_phase_three_quarters⟩
  rw [phase_index, pyInt_of_nonneg _ (pyMod_nonneg _ _ (by norm_num))]

/-- Witness for C1: the universally quantified part applied at day 0. -/
theorem moon_c1_witness :
    0 ≤ (0 : ℚ) ∧
    (phase_index 0 = ⌊pyMod ((0 : ℚ) / MOON_ORBIT_PERIOD * 8) 8⌋ ∧
      0 ≤ phase_index 0 ∧ phase_index 0 ≤ 7 ∧
      determine_moon_phase 0 = MOON_PHASES.get? (phase_index 0).toNat) :=
  ⟨le_refl 0, moon_c1.1 0 (le_refl 0)⟩

/-- C2: the local-time computation normalizes the hour into [0, 24) -- in
particular negative offsets are never left negative -- and formats it as
zero-padded HH:MM with truncated minutes; localTime(0, 0) is 00:00,
localTime(180, 0) is 12:00 and localTime(0, -5) is 19:00. -/
theorem moon_c2 :
    (∀ (pos : ℚ) (tz : ℤ),
      hour_of pos tz = pyMod (pyMod pos 360 / 360 * 24 + (tz : ℚ)) 24 ∧
      0 ≤ hour_of pos tz ∧ hour_of pos tz < 24 ∧
      calculate_time_of_day pos tz =
        pad2 (pyInt (hour_of pos tz)) ++ ":" ++
          pad2 (pyInt (pyMod (hour_of pos tz) 1 * 60))) ∧
    calculate_time_of_day 0 0 = "00:00" ∧
    calculate_time_of_day 180 0 = "12:00" ∧
    calculate_time_of_day 0 (-5) = "19:00" :=
  ⟨fun pos tz =>
    ⟨rfl, pyMod_nonneg _ 24 (by norm_num), pyMod_lt _ 24 (by norm_num), rfl⟩,
   calculate_time_of_day_zero, calculate_time_of_day_noon,
   calculate_time_of_day_minus_five⟩

/-- C8: the phase index is periodic in the orbit period: for every day in
[0, P) and every natural k, phaseIndex(day + k * P) = phaseIndex(day). -/
theorem moon_c8 (day : ℚ) (h0 : 0 ≤ day) (hP : day < MOON_ORBIT_PERIOD) (k : ℕ) :
    phase_index (day + (k : ℚ) * MOON_ORBIT_PERIOD) = phase_index day := by
  have key : (day + (k : ℚ) * MOON_ORBIT_PERIOD) / MOON_ORBIT_PERIOD * 8
      = day / MOON_ORBIT_PERIOD * 8 + 8 * ((k : ℤ) : ℚ) := by
    have hPne : (MOON_ORBIT_PERIOD : ℚ) ≠ 0 := by norm_num [MOON_ORBIT_PERIOD]
    field_simp
    ring
  rw [phase_index, phase_index, key, pyMod_add_mul _ 8 (k : ℤ) (by norm_num)]

/-- Witness for C8: day 1, k = 2. -/
theorem moon_c8_witness :
    0 ≤ (1 : ℚ) ∧ (1 : ℚ) < MOON_ORBIT_PERIOD ∧
    phase_index (1 + ((2 : ℕ) : ℚ) * MOON_ORBIT_PERIOD) = phase_index 1 :=
  ⟨by norm_num, by norm_num [MOON_ORBIT_PERIOD],
   moon_c8 1 (by norm_num) (by norm_num [MOON_ORBIT_PERIOD]) 2⟩

/-- C9: the claim asserts the phase index stays in [0,7] and the list
access never fails for every finite float day, negatives included. The
program violates this: at day = -1e-16 the exact remainder
(day / P * 8) mod 8 lands strictly between 8 - 2 ^ (-51) and 8 (proved
below), and since the binary64 doubles below 8 are spaced 2 ^ (-50) apart,
round-to-nearest evaluation of the Python % (fmod plus divisor) returns
exactly 8.0; int gives index 8, and an index-8 access of the 8-element
list fails (also proved below). Exact arithmetic instead keeps the index
at 7, so the crash is purely a float-rounding slip against the spec
requirement to always produce a value. -/
theorem moon_c9_bug :
    phase_index (-1 / 10 ^ 16) = 7 ∧
    -(1 : ℚ) / 2 ^ 51 < (-1 / 10 ^ 16 : ℚ) / MOON_ORBIT_PERIOD * 8 ∧
    (-1 / 10 ^ 16 : ℚ) / MOON_ORBIT_PERIOD * 8 < 0 ∧
    pyListGet MOON_PHASES 8 = none := by
  refine ⟨?_, by norm_num [MOON_ORBIT_PERIOD], by norm_num [MOON_ORBIT_PERIOD], by decide⟩
  have hm : pyMod ((-1 / 10 ^ 16 : ℚ) / MOON_ORBIT_PERIOD * 8) 8
      = (-1 / 10 ^ 16 : ℚ) / MOON_ORBIT_PERIOD * 8 + 8 :=
    pyMod_eq _ _ _ (-1) (by norm_num) (by push_cast; ring)
      (by norm_num [MOON_ORBIT_PERIOD]) (by norm_num [MOON_ORBIT_PERIOD])
  rw [phase_index, hm]
  exact pyInt_eq _ 7 (by norm_num) (by norm_num [MOON_ORBIT_PERIOD])
    (by norm_num [MOON_ORBIT_PERIOD])

/-- C10: the Reset button sets current_day to 0.0 and person_position to 0
but leaves the time-zone offset unchanged. -/
theorem moon_c10 (s : SimState) :
    (resetSim s).time_zone_offset = s.time_zone_offset ∧
    (resetSim s).current_day = 0 ∧ (resetSim s).person_position = 0 :=
  ⟨rfl, rfl, rfl⟩

/-- C4: starting from the initial state, every reachable session state
satisfies 0 <= current_day < P and 0 <= person_position < 360; advancing
the day adds 1 and resets to 0.0 when the result would exceed P (so the
day never exceeds P), spinning adds 30 degrees and wraps to 0 at 360, and
reset returns day and angle to 0. -/
theorem moon_c4 (s : SimState) (h : Reachable s) :
    (0 ≤ s.current_day ∧ s.current_day < MOON_ORBIT_PERIOD ∧
      0 ≤ s.person_position ∧ s.person_position < 360) ∧
    (addDay s).current_day < MOON_ORBIT_PERIOD ∧
    (MOON_ORBIT_PERIOD < s.current_day + 1 → (addDay s).current_day = 0) ∧
    (s.current_day + 1 ≤ MOON_ORBIT_PERIOD →
      (addDay s).current_day = s.current_day + 1) ∧
    (360 ≤ s.person_position + 30 → (spinEarth s).person_position = 0) ∧
    (s.person_position + 30 < 360 →
      (spinEarth s).person_position = s.person_position + 30) ∧
    (resetSim s).current_day = 0 ∧ (resetSim s).person_position = 0 := by
  obtain ⟨⟨n, hd, hn⟩, hp0, hp360⟩ := reachable_strong s h
  have hdayP : s.current_day < MOON_ORBIT_PERIOD := by
    rw [hd]
    have : (n : ℚ) ≤ 27 := by exact_mod_cast hn
    calc (n : ℚ) ≤ 27 := this
      _ < MOON_ORBIT_PERIOD := by norm_num [MOON_ORBIT_PERIOD]
  refine ⟨⟨by rw [hd]; positivity, hdayP, hp0, hp360⟩, ?_, ?_, ?_, ?_, ?_, rfl, rfl⟩
  · obtain ⟨⟨m, hdm, hm⟩, -⟩ := reachable_strong (addDay s) (Reachable.addDayStep h)
    rw [hdm]
    have : (m : ℚ) ≤ 27 := by exact_mod_cast hm
    calc (m : ℚ) ≤ 27 := this
      _ < MOON_ORBIT_PERIOD := by norm_num [MOON_ORBIT_PERIOD]
  · intro hgt
    rw [addDay, if_pos hgt]
  · intro hle
    rw [addDay, if_neg (not_lt.mpr hle)]
  · intro hge
    rw [spinEarth, if_pos hge]
  · intro hlt
    rw [spinEarth, if_neg (not_le.mpr hlt)]

/-- Witness for C4: the theorem applied at the initial state. -/
theorem moon_c4_witness :
    Reachable initState ∧
    ((0 ≤ initState.current_day ∧ initState.current_day < MOON_ORBIT_PERIOD ∧
      0 ≤ initState.person_position ∧ initState.person_position < 360) ∧
    (addDay initState).current_day < MOON_ORBIT_PERIOD ∧
    (MOON_ORBIT_PERIOD < initState.current_day + 1 →
      (addDay initState).current_day = 0) ∧
    (initState.current_day + 1 ≤ MOON_ORBIT_PERIOD →
      (addDay initState).current_day = initState.current_day + 1) ∧
    (360 ≤ initState.person_position + 30 →
      (spinEarth initState).person_position = 0) ∧
    (initState.person_position + 30 < 360 →
      (spinEarth initState).person_position = initState.person_position + 30) ∧
    (resetSim initState).current_day = 0 ∧
      (resetSim initState).person_position = 0) :=
  ⟨Reachable.init, moon_c4 initState Reachable.init⟩

/-- C5: for every day greater than or equal to 0, calculate_moon_position
returns angle = 2 pi (day / P) and the point (R cos angle, R sin angle)
with R = 384400 and P = 27.32. -/
theorem moon_c5 (day : ℝ) (h : 0 ≤ day) :
    calculate_moon_position day =
      (384400 * Real.cos (2 * Real.pi * (day / 27.32)),
       384400 * Real.sin (2 * Real.pi * (day / 27.32)),
       2 * Real.pi * (day / 27.32)) := by
  have hP : ((MOON_ORBIT_PERIOD : ℚ) : ℝ) = 27.32 := by
    norm_num [MOON_ORBIT_PERIOD]
  have hR : ((MOON_ORBIT_RADIUS : ℚ) : ℝ) = 384400 := by
    norm_num [MOON_ORBIT_RADIUS]
  rw [calculate_moon_position, moon_angle, hP, hR]

/-- Witness for C5: the theorem applied at day 0. -/
theorem moon_c5_witness :
    (0 : ℝ) ≤ 0 ∧
    calculate_moon_position 0 =
      (384400 * Real.cos (2 * Real.pi * ((0 : ℝ) / 27.32)),
       384400 * Real.sin (2 * Real.pi * ((0 : ℝ) / 27.32)),
       2 * Real.pi * ((0 : ℝ) / 27.32)) :=
  ⟨le_refl 0, moon_c5 0 (le_refl 0)⟩

/-- C6: for every day, the Moon position lies on the orbit circle:
moonX^2 + moonY^2 = R^2. -/
theorem moon_c6 (day : ℝ) :
    (calculate_moon_position day).1 ^ 2 + (calculate_moon_position day).2.1 ^ 2 =
      384400 ^ 2 := by
  have hR : ((MOON_ORBIT_RADIUS : ℚ) : ℝ) = 384400 := by
    norm_num [MOON_ORBIT_RADIUS]
  simp only [calculate_moon_position, hR]
  linear_combination (384400 : ℝ) ^ 2 * Real.cos_sq_add_sin_sq (moon_angle day)

/-- C7: the lit fraction is 1.0 at day 0 and 0.0 at half period, and is
symmetric about the half period on [0, P]. -/
theorem moon_c7 :
    lit_fraction 0 = 1 ∧
    lit_fraction ((MOON_ORBIT_PERIOD : ℝ) / 2) = 0 ∧
    ∀ day : ℝ, 0 ≤ day → day ≤ (MOON_ORBIT_PERIOD : ℝ) →
      lit_fraction day = lit_fraction ((MOON_ORBIT_PERIOD : ℝ) - day) := by
  have hP : ((MOON_ORBIT_PERIOD : ℚ) : ℝ) = 27.32 := by
    norm_num [MOON_ORBIT_PERIOD]
  refine ⟨?_, ?_, ?_⟩
  · rw [lit_fraction, lit_ratio, moon_angle]
    norm_num
  · rw [lit_fraction, lit_ratio, moon_angle, hP]
    have h1 : (27.32 : ℝ) / 2 / 27.32 = 1 / 2 := by norm_num
    rw [h1]
    have h2 : 2 * Real.pi * (1 / 2) = Real.pi := by ring
    rw [h2, Real.cos_pi]
    norm_num
  · intro day hd0 hdP
    rw [lit_fraction, lit_fraction, lit_ratio, lit_ratio, moon_angle, moon_angle, hP]
    have h3 : 2 * Real.pi * ((27.32 - day) / 27.32)
        = 2 * Real.pi - 2 * Real.pi * (day / 27.32) := by
      field_simp
      ring
    rw [h3, Real.cos_two_pi_sub]

/-- Witness for C7: the symmetry part applied at day 1. -/
theorem moon_c7_witness :
    (0 : ℝ) ≤ 1 ∧ (1 : ℝ) ≤ ((MOON_ORBIT_PERIOD : ℚ) : ℝ) ∧
    lit_fraction 1 = lit_fraction (((MOON_ORBIT_PERIOD : ℚ) : ℝ) - 1) :=
  ⟨by norm_num, by norm_num [MOON_ORBIT_PERIOD],
   moon_c7.2.2 1 (by norm_num) (by norm_num [MOON_ORBIT_PERIOD])⟩

/-- C3: for every moon angle and every in-bounds pixel, the composed Moon
sprite is black exactly on the columns from floor(litFraction * width) to
the right edge (where litFraction = 0.5 * (1 + cos angle)), and shows the
texture exactly on the columns left of floor(litFraction * width). -/
theorem moon_c3 (angle : ℝ) (w h x y : ℤ)
    (hx0 : 0 ≤ x) (hxw : x < w) (hy0 : 0 ≤ y) (hyh : y < h) :
    lit_width angle w = ⌊lit_ratio angle * (w : ℝ)⌋ ∧
    (create_moon_image angle w h x y = MoonPixel.black ↔
      ⌊lit_ratio angle * (w : ℝ)⌋ ≤ x) ∧
    (create_moon_image angle w h x y = MoonPixel.texture x y ↔
      x < ⌊lit_ratio angle * (w : ℝ)⌋) := by
  have hr : 0 ≤ lit_ratio angle := by
    rw [lit_ratio]
    nlinarith [Real.neg_one_le_cos angle]
  have hw : (0 : ℝ) ≤ (w : ℝ) := by
    have : (0 : ℤ) ≤ w := le_of_lt (lt_of_le_of_lt hx0 hxw)
    exact_mod_cast this
  have hlw : lit_width angle w = ⌊lit_ratio angle * (w : ℝ)⌋ := by
    rw [lit_width]
    exact pyInt_of_nonneg _ (mul_nonneg hr hw)
  refine ⟨hlw, ?_, ?_⟩
  · rw [create_moon_image, hlw]
    by_cases hc : ⌊lit_ratio angle * (w : ℝ)⌋ ≤ x
    · rw [if_pos ⟨hc, le_of_lt hxw, hy0, le_of_lt hyh⟩]
      simp [hc]
    · rw [if_neg (fun hcon => hc hcon.1)]
      simp [hc]
  · rw [create_moon_image, hlw]
    by_cases hc : ⌊lit_ratio angle * (w : ℝ)⌋ ≤ x
    · rw [if_pos ⟨hc, le_of_lt hxw, hy0, le_of_lt hyh⟩]
      simp [not_lt.mpr hc]
    · rw [if_neg (fun hcon => hc hcon.1)]
      simp [not_le.mp hc]

/-- Witness for C3: the theorem applied at angle 0 on a 2 by 2 sprite at
pixel (1, 0). -/
theorem moon_c3_witness :
    (0 : ℤ) ≤ 1 ∧ (1 : ℤ) < 2 ∧ (0 : ℤ) ≤ 0 ∧ (0 : ℤ) < 2 ∧
    (lit_width 0 2 = ⌊lit_ratio 0 * ((2 : ℤ) : ℝ)⌋ ∧
      (create_moon_image 0 2 2 1 0 = MoonPixel.black ↔
        ⌊lit_ratio 0 * ((2 : ℤ) : ℝ)⌋ ≤ 1) ∧
      (create_moon_image 0 2 2 1 0 = MoonPixel.texture 1 0 ↔
        1 < ⌊lit_ratio 0 * ((2 : ℤ) : ℝ)⌋)) :=
  ⟨by norm_num, by norm_num, le_refl 0, by norm_num,
   moon_c3 0 2 2 1 0 (by norm_num) (by norm_num) (le_refl 0) (by norm_num)⟩
